import Mathlib

/-!
Verification of the subscription-tracker backend (src/backend of the
repository).  The definitions below are a shallow embedding of the Python
source: `models.py` (persistence model), `schemas.py` (request schemas),
`main.py` (handlers: create / update / delete subscription, analytics
endpoint, NLP creation endpoint) and `openrouter_client.py` (pattern
matcher, LLM fallback, field validation).  Money amounts are modelled as
rationals, timestamps as integer seconds, calendar dates as a year/month/day
record.  The database session is modelled as an explicit state record;
each `await db.commit()` in the source is one state-transition step, so a
failure between two commits leaves the first commit durable, exactly as in
the source.
-/

namespace SubApp

/-- Billing-cycle enum of the persistence model (`models.py`, class
`BillingCycle`): only `monthly` and `yearly` exist. -/
inductive ModelBillingCycle where
  | monthly
  | yearly
deriving DecidableEq, Repr

/-- Billing-cycle enum of the request schema (`schemas.py`, class
`BillingCycle`): `weekly`, `monthly`, `yearly`. -/
inductive SchemaBillingCycle where
  | weekly
  | monthly
  | yearly
deriving DecidableEq, Repr

/-- Persisting a schema cycle through the `Enum(BillingCycle)` column of
`models.py`: the value must be among the defined enum values, otherwise the
flush/commit raises (SQLAlchemy `LookupError`).  `weekly` is not a member of
the model enum, so it cannot be stored. -/
def SchemaBillingCycle.toModel : SchemaBillingCycle → Option ModelBillingCycle
  | .monthly => some ModelBillingCycle.monthly
  | .yearly => some ModelBillingCycle.yearly
  | .weekly => none

/-- A calendar date (what `datetime.now()` supplies to the date logic). -/
structure Date where
  year : Nat
  month : Nat
  day : Nat
deriving DecidableEq, Repr

/-- `services` table row (`models.py`, class `Service`). -/
structure Service where
  id : Nat
  name : String
  icon_url : String
  category : String
deriving DecidableEq, Repr

/-- `subscriptions` table row (`models.py`, class `Subscription`).
`created_year`/`created_month` model the year and month of the row's
`created_at` timestamp (all the analytics code reads from `created_at`);
`updated` models `updated_at` as integer seconds. -/
structure Subscription where
  id : Nat
  user_id : Nat
  service_id : Nat
  account : String
  payment_date : String
  cost : ℚ
  billing_cycle : ModelBillingCycle
  monthly_cost : ℚ
  is_trial : Bool
  trial_start_date : Option String
  trial_end_date : Option String
  trial_duration_days : Option Int
  auto_pay : Bool
  created_year : Nat
  created_month : Nat
  updated : Int
deriving DecidableEq, Repr

/-- `user_analytics` table row (`models.py`, class `UserAnalytics`).
`category_breakdown` and `monthly_trend` keep the JSON lists as ordered
association lists; `last_calculated` is integer seconds (nullable). -/
structure UserAnalytics where
  user_id : Nat
  total_monthly_cost : ℚ
  total_annual_cost : ℚ
  service_count : Nat
  category_breakdown : List (String × ℚ)
  monthly_trend : List (String × ℚ)
  last_calculated : Option Int
deriving DecidableEq, Repr

/-- The database state visible to the handlers (the user row itself is not
modelled: every claim presupposes an existing authenticated user). -/
structure DBState where
  services : List Service
  subscriptions : List Subscription
  analytics : List UserAnalytics
deriving DecidableEq, Repr

/-! ## Analytics computation (`main.py`, `calculate_and_cache_analytics`) -/

/-- `strftime("%b")` short month name. -/
def monthName : Nat → String
  | 1 => "Jan"
  | 2 => "Feb"
  | 3 => "Mar"
  | 4 => "Apr"
  | 5 => "May"
  | 6 => "Jun"
  | 7 => "Jul"
  | 8 => "Aug"
  | 9 => "Sep"
  | 10 => "Oct"
  | 11 => "Nov"
  | 12 => "Dec"
  | _ => ""

/-- Numeric stand-in for the `strftime("%Y-%m")` grouping key; sorting these
numbers agrees with sorting the zero-padded strings. -/
def monthKey (y m : Nat) : Nat := y * 100 + m

/-- `SELECT ... WHERE Subscription.user_id == user.id`. -/
def userSubscriptions (subs : List Subscription) (uid : Nat) : List Subscription :=
  subs.filter (fun s => s.user_id == uid)

/-- `sum(sub.monthly_cost for sub in subscriptions)`. -/
def totalMonthlyCost (subs : List Subscription) : ℚ :=
  (subs.map (fun s => s.monthly_cost)).sum

/-- Category of one subscription: its referenced service's category, or
`"Other"` when no service row with that id exists. -/
def categoryOf (services : List Service) (s : Subscription) : String :=
  match services.find? (fun sv => sv.id == s.service_id) with
  | some sv => sv.category
  | none => "Other"

/-- One step of building the `category_breakdown` dict: add `v` to the entry
for `cat`, creating it at the end when absent (Python dict insertion
order). -/
def addToBreakdown (bd : List (String × ℚ)) (cat : String) (v : ℚ) :
    List (String × ℚ) :=
  match bd with
  | [] => [(cat, v)]
  | (c, t) :: rest =>
    if c = cat then (c, t + v) :: rest else (c, t) :: addToBreakdown rest cat v

/-- The `category_breakdown` loop of `calculate_and_cache_analytics`. -/
def categoryBreakdown (services : List Service) (subs : List Subscription) :
    List (String × ℚ) :=
  subs.foldl (fun bd s => addToBreakdown bd (categoryOf services s) s.monthly_cost) []

/-- One step of building the `monthly_data` dict keyed by `"%Y-%m"`, each
entry remembering the `"%b"` name of the first subscription that opened it. -/
def addToTrend (td : List (Nat × String × ℚ)) (key : Nat) (name : String) (v : ℚ) :
    List (Nat × String × ℚ) :=
  match td with
  | [] => [(key, name, v)]
  | (k, n, t) :: rest =>
    if k = key then (k, n, t + v) :: rest else (k, n, t) :: addToTrend rest key name v

/-- Insertion step for sorting trend entries by month key. -/
def insertByKey (x : Nat × String × ℚ) :
    List (Nat × String × ℚ) → List (Nat × String × ℚ)
  | [] => [x]
  | y :: ys => if x.1 ≤ y.1 then x :: y :: ys else y :: insertByKey x ys

/-- `sorted(monthly_data.keys())`: emit trend groups in ascending key
order. -/
def sortByKey (l : List (Nat × String × ℚ)) : List (Nat × String × ℚ) :=
  l.foldr insertByKey []

/-- The `monthly_trend` computation of `calculate_and_cache_analytics`:
group by `created_at` year-month, label with the short month name, sum
`monthly_cost`, order chronologically. -/
def monthlyTrend (subs : List Subscription) : List (String × ℚ) :=
  match subs with
  | [] => []
  | _ =>
    let td := subs.foldl
      (fun td s =>
        addToTrend td (monthKey s.created_year s.created_month)
          (monthName s.created_month) s.monthly_cost) []
    (sortByKey td).map (fun e => (e.2.1, e.2.2))

/-- The snapshot contents computed by `calculate_and_cache_analytics` for
one user at time `nowTs` (everything written into the `UserAnalytics`
row). -/
def computeSnapshot (services : List Service) (subs : List Subscription)
    (uid : Nat) (nowTs : Int) : UserAnalytics :=
  let mySubs := userSubscriptions subs uid
  { user_id := uid
    total_monthly_cost := totalMonthlyCost mySubs
    total_annual_cost := totalMonthlyCost mySubs * 12
    service_count := mySubs.length
    category_breakdown := categoryBreakdown services mySubs
    monthly_trend := monthlyTrend mySubs
    last_calculated := some nowTs }

/-- `scalar_one_or_none` on `UserAnalytics` filtered by user id. -/
def findAnalytics (st : DBState) (uid : Nat) : Option UserAnalytics :=
  st.analytics.find? (fun a => a.user_id == uid)

/-- Find-or-create then overwrite of the per-user analytics row (the row is
unique per user). -/
def upsertAnalytics (l : List UserAnalytics) (uid : Nat) (snap : UserAnalytics) :
    List UserAnalytics :=
  if l.any (fun a => a.user_id == uid) then
    l.map (fun a => if a.user_id == uid then snap else a)
  else l ++ [snap]

/-- `calculate_and_cache_analytics(user, db)`: recompute the snapshot from
the current subscription set and store it on the user's analytics row. -/
def calculate_and_cache_analytics (st : DBState) (uid : Nat) (nowTs : Int) :
    DBState :=
  { st with
    analytics :=
      upsertAnalytics st.analytics uid
        (computeSnapshot st.services st.subscriptions uid nowTs) }

/-! ## Analytics endpoint (`main.py`, `get_analytics`) -/

/-- The `should_refresh` condition of `get_analytics`: force refresh, or no
row, or null `last_calculated`, or elapsed seconds strictly greater than
3600. -/
def shouldRefresh (force : Bool) (a : Option UserAnalytics) (nowTs : Int) : Bool :=
  force ||
    match a with
    | none => true
    | some s =>
      match s.last_calculated with
      | none => true
      | some lc => decide (nowTs - lc > 3600)

/-- `GET /analytics`: returns the snapshot the response is assembled from,
and the database state after the request. -/
def get_analytics (st : DBState) (uid : Nat) (force : Bool) (nowTs : Int) :
    Option UserAnalytics × DBState :=
  let a := findAnalytics st uid
  if shouldRefresh force a nowTs then
    (some (computeSnapshot st.services st.subscriptions uid nowTs),
      calculate_and_cache_analytics st uid nowTs)
  else (a, st)

/-! ## Calendar helpers (the date arithmetic performed with `datetime`) -/

/-- Gregorian leap year. -/
def isLeap (y : Nat) : Bool :=
  (y % 4 == 0 && y % 100 != 0) || y % 400 == 0

/-- Number of days of a month. -/
def daysInMonth (y m : Nat) : Nat :=
  if m == 2 then (if isLeap y then 29 else 28)
  else if m == 4 || m == 6 || m == 9 || m == 11 then 30
  else 31

/-- Successor day in the calendar. -/
def nextDay (d : Date) : Date :=
  if d.day < daysInMonth d.year d.month then ⟨d.year, d.month, d.day + 1⟩
  else if d.month < 12 then ⟨d.year, d.month + 1, 1⟩
  else ⟨d.year + 1, 1, 1⟩

/-- `date + timedelta(days=n)`. -/
def addDays (d : Date) : Nat → Date
  | 0 => d
  | n + 1 => addDays (nextDay d) n

/-- Zero-padded two-digit rendering (`%m`, `%d`). -/
def pad2 (n : Nat) : String :=
  if n < 10 then "0" ++ toString n else toString n

/-- Zero-padded four-digit rendering (`%Y`). -/
def pad4 (n : Nat) : String :=
  if n < 10 then "000" ++ toString n
  else if n < 100 then "00" ++ toString n
  else if n < 1000 then "0" ++ toString n
  else toString n

/-- `strftime("%Y-%m-%d")`. -/
def dateToIso (d : Date) : String :=
  pad4 d.year ++ "-" ++ pad2 d.month ++ "-" ++ pad2 d.day

/-- Numeric value of an ASCII digit character. -/
def digitVal (c : Char) : Nat := c.toNat - 48

/-- Is the character an ASCII digit. -/
def isDigitC (c : Char) : Bool := '0' ≤ c && c ≤ '9'

/-- Does `datetime.fromisoformat` accept the string: modelled for the
`YYYY-MM-DD` date strings this pipeline produces and validates (other
accepted `datetime` shapes do not arise in the modelled flows). -/
def isoDateParses (s : String) : Bool :=
  match s.toList with
  | [y1, y2, y3, y4, '-', m1, m2, '-', d1, d2] =>
    [y1, y2, y3, y4, m1, m2, d1, d2].all isDigitC &&
      (let y := ((digitVal y1 * 10 + digitVal y2) * 10 + digitVal y3) * 10 + digitVal y4
       let m := digitVal m1 * 10 + digitVal m2
       let d := digitVal d1 * 10 + digitVal d2
       1 ≤ m && m ≤ 12 && 1 ≤ d && d ≤ daysInMonth y m)
  | _ => false

/-- The `next month's first day` computation shared by
`_get_default_payment_date` and the `payment_date` fallback of
`_validate_and_normalize`: day set to 1, month advanced by one (rolling the
year past December), rendered `%Y-%m-%d`. -/
def firstDayNextMonth (now : Date) : String :=
  if now.month == 12 then pad4 (now.year + 1) ++ "-" ++ pad2 1 ++ "-01"
  else pad4 now.year ++ "-" ++ pad2 (now.month + 1) ++ "-01"

/-! ## Subscription mutations (`main.py`: `create_subscription`,
`update_subscription`, `delete_subscription`)

Each handler runs: mutation, `await db.commit()`, then
`calculate_and_cache_analytics`, `await db.commit()` — two separate
transactions (the create handler in fact always raises before reaching its
first commit, see `mutationPhase1`).  `runMutation` takes an `analyticsOk`
flag: `false` means the recompute-and-store step (or its commit) raises, in
which case the handler propagates a server error while the first commit
stays durable. -/

/-- Request body of `POST /subscriptions` (`schemas.py`,
`SubscriptionCreate`): note that `cost`, `billing_cycle` and `monthly_cost`
are all caller-supplied fields. -/
structure ServiceBase where
  name : String
  icon_url : Option String
  icon_source_url : Option String
  category : String
deriving DecidableEq, Repr

/-- Caller-supplied create payload. -/
structure SubscriptionCreate where
  service : Option ServiceBase
  account : String
  payment_date : String
  cost : ℚ
  billing_cycle : SchemaBillingCycle
  monthly_cost : ℚ
  is_trial : Bool
  trial_start_date : Option String
  trial_end_date : Option String
  trial_duration_days : Option Int
  auto_pay : Bool
deriving DecidableEq, Repr

/-- Request body of `PUT /subscriptions/:id` (`schemas.py`,
`SubscriptionUpdate`): every field optional, only present fields applied. -/
structure SubscriptionUpdate where
  account : Option String
  payment_date : Option String
  cost : Option ℚ
  billing_cycle : Option SchemaBillingCycle
  monthly_cost : Option ℚ
  is_trial : Option Bool
  trial_start_date : Option String
  trial_end_date : Option String
  trial_duration_days : Option Int
  auto_pay : Option Bool
deriving DecidableEq, Repr

/-- Outcome of a handler, keyed to the HTTP status it produces. -/
inductive HttpOutcome (α : Type) where
  | ok (a : α)
  | notFound
  | unprocessable
  | serverError
deriving DecidableEq, Repr

/-- One of the three mutation requests. -/
inductive MutationOp where
  | create (req : SubscriptionCreate) (newServiceId newSubId : Nat)
  | update (subId : Nat) (u : SubscriptionUpdate)
  | delete (subId : Nat)
deriving DecidableEq, Repr

/-- The field-merge loop of `update_subscription`: only fields present in
the request are overwritten; `updated_at` is always bumped.  Returns `none`
when the new billing cycle cannot be stored in the model enum (the commit
raises). -/
def applyUpdate (s : Subscription) (u : SubscriptionUpdate) (nowTs : Int) :
    Option Subscription :=
  let cyc : Option ModelBillingCycle :=
    match u.billing_cycle with
    | none => some s.billing_cycle
    | some c => c.toModel
  match cyc with
  | none => none
  | some c =>
    some { s with
      account := u.account.getD s.account
      payment_date := u.payment_date.getD s.payment_date
      cost := u.cost.getD s.cost
      billing_cycle := c
      monthly_cost := u.monthly_cost.getD s.monthly_cost
      is_trial := u.is_trial.getD s.is_trial
      trial_start_date :=
        match u.trial_start_date with
        | some d => some d
        | none => s.trial_start_date
      trial_end_date :=
        match u.trial_end_date with
        | some d => some d
        | none => s.trial_end_date
      trial_duration_days :=
        match u.trial_duration_days with
        | some d => some d
        | none => s.trial_duration_days
      auto_pay := u.auto_pay.getD s.auto_pay
      updated := nowTs }

/-- Phase 1 of a mutation handler: everything up to and including the first
`await db.commit()`.  `Except.error` is a failure before anything became
durable (the whole transaction rolls back, state unchanged);
`Except.ok (r, st1)` is the response value and the state made durable by the
first commit.

Create: with no service info the handler raises 422 before touching any
constructor.  With service info it always raises `TypeError` before its
first commit: `models.Service` has no `icon_source_url` column and
`models.Subscription` has no `auto_pay` column, yet `main.py` passes the
`icon_source_url` keyword whenever it constructs a `Service` (line 320) and
the `auto_pay` keyword on every `Subscription(...)` (line 342), and the
declarative constructor rejects unmapped keywords.  Either way nothing is
committed (a flushed `Service` insert rolls back with the session), the
request answers 500, and the state is unchanged — so no create ever
persists a subscription. -/
def mutationPhase1 (st : DBState) (uid : Nat) (nowDate : Date) (nowTs : Int) :
    MutationOp → Except (HttpOutcome Nat) (HttpOutcome Nat × DBState)
  | .create req _newServiceId _newSubId =>
    match req.service with
    | none => .error .unprocessable
    | some _ => .error .serverError
  | .update subId u =>
    match st.subscriptions.find? (fun s => s.id == subId && s.user_id == uid) with
    | none => .error .notFound
    | some s =>
      match applyUpdate s u nowTs with
      | none => .error .serverError
      | some s2 =>
        .ok (.ok subId,
          { st with
            subscriptions :=
              st.subscriptions.map (fun t => if t.id == subId then s2 else t) })
  | .delete subId =>
    match st.subscriptions.find? (fun s => s.id == subId && s.user_id == uid) with
    | none => .error .notFound
    | some _ =>
      .ok (.ok subId,
        { st with
          subscriptions := st.subscriptions.filter (fun s => !(s.id == subId)) })

/-- A full mutation handler run: phase 1 (mutation + first commit), then the
analytics recompute-and-store with its own commit.  `analyticsOk = false`
models a failure of that second step: the handler surfaces a server error,
and the state keeps exactly the durable effect of the first commit. -/
def runMutation (st : DBState) (uid : Nat) (nowDate : Date) (nowTs : Int)
    (analyticsOk : Bool) (op : MutationOp) : HttpOutcome Nat × DBState :=
  match mutationPhase1 st uid nowDate nowTs op with
  | .error e => (e, st)
  | .ok (r, st1) =>
    if analyticsOk then (r, calculate_and_cache_analytics st1 uid nowTs)
    else (.serverError, st1)

/-- Modelled from the spec: the Money Normalizer of section 4.1 (`normalize
(cost, cycle) -> monthly cost`).  No function in `src/backend` computes it;
this definition follows the spec's words and is compared against what the
code stores. -/
def spec_normalize (cost : ℚ) : SchemaBillingCycle → ℚ
  | .monthly => cost
  | .yearly => cost / 12
  | .weekly => cost * 52 / 12

/-! ## NLP extraction pipeline (`openrouter_client.py`) -/

/-- ASCII lowercase of one character (`str.lower()` on the ASCII inputs
handled here). -/
def asciiLower (c : Char) : Char :=
  if 'A' ≤ c && c ≤ 'Z' then Char.ofNat (c.toNat + 32) else c

/-- `text.lower()`. -/
def lowerStr (s : String) : String :=
  String.mk (s.toList.map asciiLower)

/-- Is the character in the regex class `\w` (ASCII inputs). -/
def isWordChar (c : Char) : Bool :=
  isDigitC c || ('a' ≤ c && c ≤ 'z') || ('A' ≤ c && c ≤ 'Z') || c == '_'

/-- Is the character in the regex class `[\w\.-]`. -/
def emailChar (c : Char) : Bool :=
  isWordChar c || c == '.' || c == '-'

/-- Substring containment on character lists (`needle in hay`). -/
def containsSub (needle : List Char) : List Char → Bool
  | [] => needle.isEmpty
  | c :: rest => needle.isPrefixOf (c :: rest) || containsSub needle rest

/-- Python `needle in hay` on strings. -/
def strContains (hay needle : String) : Bool :=
  containsSub needle.toList hay.toList

/-- Longest prefix satisfying `p` together with the remainder. -/
def takeWhileC (p : Char → Bool) : List Char → List Char × List Char
  | [] => ([], [])
  | c :: rest =>
    if p c then
      let (a, b) := takeWhileC p rest
      (c :: a, b)
    else ([], c :: rest)

/-- The token matched by `\d+\.?\d*` starting at a digit: a digit run, one
optional dot, a further digit run. -/
def numToken (l : List Char) : List Char :=
  let (ds, r) := takeWhileC isDigitC l
  match r with
  | '.' :: r2 => ds ++ '.' :: (takeWhileC isDigitC r2).1
  | _ => ds

/-- Leftmost match of the price regex `\$?(\d+\.?\d*)` of
`_try_pattern_based_parsing`: the captured group starts at the first digit
(the optional dollar sign does not change the capture). -/
def findFirstNumber : List Char → Option (List Char)
  | [] => none
  | c :: rest => if isDigitC c then some (numToken (c :: rest)) else findFirstNumber rest

/-- Value of a digit run. -/
def digitsToNat (l : List Char) : Nat :=
  l.foldl (fun acc c => acc * 10 + digitVal c) 0

/-- Python `float()` of the decimal token produced by `numToken`. -/
def decToRat (l : List Char) : ℚ :=
  let (ip, r) := takeWhileC isDigitC l
  match r with
  | '.' :: r2 =>
    let fp := (takeWhileC isDigitC r2).1
    (digitsToNat ip : ℚ) + (digitsToNat fp : ℚ) / ((10 : ℚ) ^ fp.length)
  | _ => (digitsToNat ip : ℚ)

/-- Split a `[\w\.-]` run at its last dot that has a word character right
after it, keeping the part before the dot and the part after it (the greedy
backtracking of `[\w\.-]+\.\w+`). -/
def lastDotSplit : List Char → Option (List Char × List Char)
  | [] => none
  | c :: rest =>
    match lastDotSplit rest with
    | some (b, a) => some (c :: b, a)
    | none =>
      if c == '.' then
        match rest with
        | r :: _ => if isWordChar r then some ([], rest) else none
        | [] => none
      else none

/-- Match of the tail `[\w\.-]+\.\w+` of the email regex right after the
`@`: greedy class run, then the last usable dot, then a greedy word run. -/
def emailTail (l : List Char) : Option (List Char) :=
  let run := (takeWhileC emailChar l).1
  match lastDotSplit run with
  | some (b, a) =>
    if b.isEmpty then none
    else some (b ++ '.' :: (takeWhileC isWordChar a).1)
  | none => none

/-- Leftmost match of the account regex `[\w\.-]+@[\w\.-]+\.\w+`: try each
start position left to right; a position matches when a nonempty class run
is immediately followed by `@` and a valid tail. -/
def findEmailAux : List Char → Option (List Char)
  | [] => none
  | c :: rest =>
    let here : Option (List Char) :=
      if emailChar c then
        let (r1, after) := takeWhileC emailChar (c :: rest)
        match after with
        | '@' :: t =>
          match emailTail t with
          | some tl => some (r1 ++ '@' :: tl)
          | none => none
        | _ => none
      else none
    match here with
    | some m => some m
    | none => findEmailAux rest

/-- `re.search` for the email regex on a string. -/
def findEmail (text : String) : Option String :=
  (findEmailAux text.toList).map String.mk

/-- One row of the `service_patterns` table. -/
structure PatternInfo where
  pat : String
  name : String
  category : String
  default_cost : ℚ
deriving DecidableEq, Repr

/-- The `service_patterns` table of `_try_pattern_based_parsing`, in source
order (first hit wins). -/
def service_patterns : List PatternInfo :=
  [ ⟨"netflix", "Netflix", "Entertainment", 1599/100⟩,
    ⟨"spotify", "Spotify", "Entertainment", 999/100⟩,
    ⟨"amazon prime", "Amazon Prime", "Entertainment", 899/100⟩,
    ⟨"disney", "Disney+", "Entertainment", 799/100⟩,
    ⟨"github", "GitHub", "Development", 7⟩,
    ⟨"youtube premium", "YouTube Premium", "Entertainment", 1199/100⟩ ]

/-- The parsed-data dict flowing out of the pipeline (pattern path or
normalized LLM output): `service_name`, `monthly_cost` and `payment_date`
may be null, the rest always carries a value. -/
structure ParsedData where
  service_name : Option String
  service_category : String
  account : String
  monthly_cost : Option ℚ
  payment_date : Option String
  is_trial : Bool
  trial_duration_days : Int
deriving DecidableEq, Repr

/-- The trial-duration ladder of `_try_pattern_based_parsing` (applied to
the lowercased text once a trial keyword was seen). -/
def trialDays (tl : String) : Int :=
  if strContains tl "30 days" || strContains tl "30-day" || strContains tl "1 month" then 30
  else if strContains tl "7 days" || strContains tl "7-day" || strContains tl "1 week" then 7
  else if strContains tl "14 days" || strContains tl "14-day" || strContains tl "2 weeks" then 14
  else 30

/-- `_try_pattern_based_parsing(text)`: substring match against the service
table on the lowercased text; on a hit, price by regex (default price when
absent), account by email regex (placeholder when absent), trial keywords
and duration phrases, payment date defaulted to the first day of next
month. -/
def tryPatternBasedParsing (now : Date) (text : String) : Option ParsedData :=
  let tl := lowerStr text
  match service_patterns.find? (fun p => strContains tl p.pat) with
  | none => none
  | some info =>
    let monthly_cost :=
      match findFirstNumber text.toList with
      | some ds => decToRat ds
      | none => info.default_cost
    let account :=
      match findEmail text with
      | some e => e
      | none => "Default Account"
    let hasTrialWord := strContains tl "trial" || strContains tl "free"
    some { service_name := some info.name
           service_category := info.category
           account := account
           monthly_cost := some monthly_cost
           payment_date := some (firstDayNextMonth now)
           is_trial := hasTrialWord
           trial_duration_days := if hasTrialWord then trialDays tl else 0 }

/-- A value found under `monthly_cost` in the LLM's JSON: either something
`float()` coerces, or something it raises on. -/
inductive CostVal where
  | num (q : ℚ)
  | uncoercible
deriving DecidableEq, Repr

/-- The raw dict decoded from the LLM's JSON block, before
`_validate_and_normalize`; `none` models a missing or null field. -/
structure RawParsed where
  service_name : Option String
  service_category : Option String
  account : Option String
  monthly_cost : Option CostVal
  payment_date : Option String
  is_trial : Option Bool
  trial_duration_days : Option Int
deriving DecidableEq, Repr

/-- `_validate_and_normalize(data)`: trims a nonempty `service_name` (null
otherwise), defaults `service_category` to "Other" and `account` to
"Default Account", coerces `monthly_cost` or leaves it null, and — for
`payment_date` — keeps a string that parses as an ISO date, replaces a
nonempty unparseable string by the first day of next month, and leaves a
missing or empty value at the initial null (the falsy guard skips both the
assignment and the exception handler). -/
def validate_and_normalize (now : Date) (data : RawParsed) : ParsedData :=
  { service_name :=
      match data.service_name with
      | some s => if s = "" then none else some s.trim
      | none => none
    service_category := data.service_category.getD "Other"
    account :=
      match data.account with
      | some s => if s = "" then "Default Account" else s.trim
      | none => "Default Account"
    monthly_cost :=
      match data.monthly_cost with
      | some (.num q) => some q
      | some .uncoercible => none
      | none => none
    payment_date :=
      match data.payment_date with
      | some s =>
        if s = "" then none
        else if isoDateParses s then some s
        else some (firstDayNextMonth now)
      | none => none
    is_trial := data.is_trial.getD false
    trial_duration_days := data.trial_duration_days.getD 0 }

/-- The externally observable outcome of the LLM call plus JSON-block
extraction: transport failure / non-200 / timeout, a reply without a JSON
block, or a reply whose JSON block decoded to a dict. -/
inductive LLMOutcome where
  | unavailable
  | replyNoJson
  | replyJson (d : RawParsed)
deriving DecidableEq, Repr

/-- `parse_subscription_text(text, image?)`: pattern fast path first and
returned immediately on a hit; otherwise the LLM is consulted, its JSON
normalized, and every failure mode falls back to the pattern result (which
is null here). -/
def parse_subscription_text (llm : LLMOutcome) (now : Date) (text : String) :
    Option ParsedData :=
  match tryPatternBasedParsing now text with
  | some r => some r
  | none =>
    match llm with
    | .unavailable => none
    | .replyNoJson => none
    | .replyJson d => some (validate_and_normalize now d)

/-! ## NLP creation endpoint (`main.py`, `create_subscription_from_nlp`) -/

/-- The distinguishable user-facing messages of the endpoint.  Literal
source strings: `unableToParse` is "Unable to parse subscription
information, please provide more details"; `unableToDetermineCost` is
"Unable to determine monthly cost, please specify the amount"; `added` is
"Subscription information added successfully" (present in the source but
never returned: response assembly raises on the unmapped `auto_pay`
attribute first); `processingError` is the "Error processing request: ..."
text of the catch-all handler. -/
inductive NLPMessage where
  | unableToParse
  | unableToDetermineCost
  | added
  | processingError
deriving DecidableEq, Repr

/-- `NLPSubscriptionResponse` (`schemas.py`): the created subscription is
represented by its id. -/
structure NLPResponse where
  success : Bool
  message : NLPMessage
  subscription : Option Nat
  parsed_data : Option ParsedData
deriving DecidableEq, Repr

/-- Python truthiness of an optional string (`None` and `""` are falsy). -/
def pyTruthyOptStr : Option String → Bool
  | none => false
  | some s => !(s == "")

/-- Python truthiness of an optional number (`None` and `0.0` are falsy). -/
def pyTruthyOptRat : Option ℚ → Bool
  | none => false
  | some q => decide (q ≠ 0)

/-- `POST /subscriptions/nlp`: parse, soft-fail when no service name or no
cost could be determined (carrying the parsed dict as-is), otherwise
get-or-create the service, derive trial dates, insert the subscription with
`billing_cycle="monthly"`, commit, then recompute analytics and commit; any
exception (unparsable payment date, analytics failure) is caught and
returned as a processing-error response with `parsed_data=None`, without
undoing an already-committed insert.  The constructors on this path pass no
unmapped keyword, so the insert and both commits succeed — but the response
assembly then reads `db_subscription.auto_pay` (`main.py` line 620), an
attribute `models.Subscription` does not map, raising `AttributeError`
after both commits; the catch-all turns even the fully committed case into
the processing-error response, so the success message is never returned. -/
def create_subscription_from_nlp (llm : LLMOutcome) (st : DBState) (uid : Nat)
    (text : String) (now : Date) (nowTs : Int) (newServiceId newSubId : Nat)
    (analyticsOk : Bool) : NLPResponse × DBState :=
  match parse_subscription_text llm now text with
  | none => (⟨false, .unableToParse, none, none⟩, st)
  | some d =>
    if !(pyTruthyOptStr d.service_name) then
      (⟨false, .unableToParse, none, some d⟩, st)
    else if !(pyTruthyOptRat d.monthly_cost) then
      (⟨false, .unableToDetermineCost, none, some d⟩, st)
    else
      let sname := d.service_name.getD ""
      let (svc, services1) :=
        match st.services.find? (fun s => s.name == sname) with
        | some s => (s, st.services)
        | none =>
          let s : Service := ⟨newServiceId, sname, "", d.service_category⟩
          (s, st.services ++ [s])
      match d.payment_date with
      | none => (⟨false, .processingError, none, none⟩, st)
      | some pdate =>
        if !(isoDateParses pdate) then (⟨false, .processingError, none, none⟩, st)
        else
          let cost := d.monthly_cost.getD 0
          let hasTrial := d.is_trial && d.trial_duration_days > 0
          let sub : Subscription :=
            { id := newSubId
              user_id := uid
              service_id := svc.id
              account := d.account
              payment_date := pdate
              cost := cost
              billing_cycle := .monthly
              monthly_cost := cost
              is_trial := d.is_trial
              trial_start_date := if hasTrial then some (dateToIso now) else none
              trial_end_date :=
                if hasTrial then some (dateToIso (addDays now d.trial_duration_days.toNat))
                else none
              trial_duration_days := some d.trial_duration_days
              auto_pay := false
              created_year := now.year
              created_month := now.month
              updated := nowTs }
          let st1 : DBState :=
            { st with
              services := services1
              subscriptions := st.subscriptions ++ [sub] }
          if analyticsOk then
            (⟨false, .processingError, none, none⟩,
              calculate_and_cache_analytics st1 uid nowTs)
          else (⟨false, .processingError, none, none⟩, st1)

/-! ## Helper lemmas -/

/-- Sum of the per-category totals of a breakdown list. -/
def breakdownTotal (bd : List (String × ℚ)) : ℚ :=
  (bd.map Prod.snd).sum

theorem addToBreakdown_total (bd : List (String × ℚ)) (cat : String) (v : ℚ) :
    breakdownTotal (addToBreakdown bd cat v) = breakdownTotal bd + v := by
  induction bd with
  | nil => simp [addToBreakdown, breakdownTotal]
  | cons p rest ih =>
    obtain ⟨c, t⟩ := p
    by_cases h : c = cat
    · simp [addToBreakdown, h, breakdownTotal]
      ring
    · simp only [addToBreakdown, if_neg h, breakdownTotal, List.map_cons, List.sum_cons] at ih ⊢
      rw [ih]
      ring

theorem foldl_breakdown_total (services : List Service) (subs : List Subscription)
    (bd : List (String × ℚ)) :
    breakdownTotal
        (subs.foldl (fun b s => addToBreakdown b (categoryOf services s) s.monthly_cost) bd)
      = breakdownTotal bd + totalMonthlyCost subs := by
  induction subs generalizing bd with
  | nil => simp [totalMonthlyCost]
  | cons s rest ih =>
    simp only [List.foldl_cons]
    rw [ih, addToBreakdown_total]
    simp only [totalMonthlyCost, List.map_cons, List.sum_cons]
    ring

theorem find?_map_replace (l : List UserAnalytics) (uid : Nat) (snap : UserAnalytics)
    (hu : snap.user_id = uid) (h : l.any (fun a => a.user_id == uid) = true) :
    (l.map (fun a => if a.user_id == uid then snap else a)).find?
        (fun a => a.user_id == uid) = some snap := by
  induction l with
  | nil => simp at h
  | cons a rest ih =>
    rw [List.map_cons]
    by_cases ha : (a.user_id == uid) = true
    · rw [if_pos ha, List.find?_cons]
      have hsnap : (snap.user_id == uid) = true := by simp [hu]
      rw [hsnap]
    · rw [if_neg ha, List.find?_cons]
      have hfa : (a.user_id == uid) = false := by
        cases hb : (a.user_id == uid)
        · rfl
        · exact absurd hb ha
      rw [hfa]
      have hrest : rest.any (fun a => a.user_id == uid) = true := by
        rcases (List.any_eq_true.mp h) with ⟨x, hx, hpx⟩
        rcases List.mem_cons.mp hx with hx2 | hx2
        · exact absurd (hx2 ▸ hpx) ha
        · exact List.any_eq_true.mpr ⟨x, hx2, hpx⟩
      exact ih hrest

theorem find?_append_new (l : List UserAnalytics) (uid : Nat) (snap : UserAnalytics)
    (hu : snap.user_id = uid) (h : l.any (fun a => a.user_id == uid) = false) :
    ((l ++ [snap]).find? (fun a => a.user_id == uid)) = some snap := by
  induction l with
  | nil =>
    rw [List.nil_append, List.find?_cons]
    have hsnap : (snap.user_id == uid) = true := by simp [hu]
    rw [hsnap]
  | cons a rest ih =>
    have ha : (a.user_id == uid) = false := by
      cases hb : (a.user_id == uid)
      · rfl
      · have : (a :: rest).any (fun a => a.user_id == uid) = true :=
          List.any_eq_true.mpr ⟨a, List.mem_cons_self a rest, hb⟩
        rw [h] at this
        exact Bool.noConfusion this
    have hrest : rest.any (fun a => a.user_id == uid) = false := by
      cases hr : rest.any (fun a => a.user_id == uid)
      · rfl
      · rcases List.any_eq_true.mp hr with ⟨x, hx, hpx⟩
        have : (a :: rest).any (fun a => a.user_id == uid) = true :=
          List.any_eq_true.mpr ⟨x, List.mem_cons_of_mem a hx, hpx⟩
        rw [h] at this
        exact Bool.noConfusion this
    rw [List.cons_append, List.find?_cons, ha]
    exact ih hrest

theorem find?_upsert (l : List UserAnalytics) (uid : Nat) (snap : UserAnalytics)
    (hu : snap.user_id = uid) :
    (upsertAnalytics l uid snap).find? (fun a => a.user_id == uid) = some snap := by
  unfold upsertAnalytics
  by_cases h : l.any (fun a => a.user_id == uid) = true
  · rw [if_pos h]
    exact find?_map_replace l uid snap hu h
  · rw [if_neg h]
    exact find?_append_new l uid snap hu (Bool.eq_false_iff.mpr h)

theorem findAnalytics_calc (st : DBState) (uid : Nat) (t : Int) :
    findAnalytics (calculate_and_cache_analytics st uid t) uid
      = some (computeSnapshot st.services st.subscriptions uid t) :=
  find?_upsert st.analytics uid _ rfl

theorem shouldRefresh_iff (force : Bool) (a : Option UserAnalytics) (nowTs : Int) :
    shouldRefresh force a nowTs = true ↔
      (force = true ∨ a = none ∨
        (∃ s, a = some s ∧ s.last_calculated = none) ∨
        (∃ s lc, a = some s ∧ s.last_calculated = some lc ∧ nowTs - lc > 3600)) := by
  cases a with
  | none => simp [shouldRefresh]
  | some s =>
    cases hlc : s.last_calculated with
    | none =>
      simp only [shouldRefresh, hlc, Bool.or_true]
      constructor
      · intro _
        exact Or.inr (Or.inr (Or.inl ⟨s, rfl, hlc⟩))
      · intro _
        trivial
    | some lc =>
      simp only [shouldRefresh, hlc, Bool.or_eq_true, decide_eq_true_eq]
      constructor
      · rintro (hf | hgt)
        · exact Or.inl hf
        · exact Or.inr (Or.inr (Or.inr ⟨s, lc, rfl, hlc, hgt⟩))
      · rintro (hf | hnone | ⟨s2, hs2, h2⟩ | ⟨s2, lc2, hs2, hlc2, h2⟩)
        · exact Or.inl hf
        · exact absurd hnone (by simp)
        · cases Option.some.inj hs2
          rw [hlc] at h2
          exact Option.noConfusion h2
        · cases Option.some.inj hs2
          rw [hlc] at hlc2
          cases Option.some.inj hlc2
          exact Or.inr h2

/-! ## Concrete fixtures for witnesses and counterexamples -/

/-- A service row. -/
def svcEnt : Service := ⟨1, "Netflix", "", "Entertainment"⟩

/-- A subscription of user 1 referencing `svcEnt`. -/
def subOne : Subscription :=
  ⟨1, 1, 1, "a@b.com", "2026-01-15", 1599/100, .monthly, 1599/100,
    false, none, none, none, false, 2026, 1, 0⟩

/-- A snapshot for user 1 computed at time 4000. -/
def snapOne : UserAnalytics := computeSnapshot [svcEnt] [subOne] 1 4000

/-- A database state with one user-1 subscription and a snapshot from time
4000. -/
def stOne : DBState := ⟨[svcEnt], [subOne], [snapOne]⟩

/-! ## Claim C2 -/

/-- C2: on every analytics request the stored snapshot is recomputed if and
only if the caller forces a refresh, or no snapshot exists, or its
`last_calculated` is null, or more than one hour (3600 seconds) has elapsed
since `last_calculated`; in every other case the stored snapshot is
returned as-is and the state is untouched. -/
theorem analytics_cache_policy (st : DBState) (uid : Nat) (force : Bool) (nowTs : Int) :
    ((force = true ∨ findAnalytics st uid = none ∨
        (∃ s, findAnalytics st uid = some s ∧ s.last_calculated = none) ∨
        (∃ s lc, findAnalytics st uid = some s ∧ s.last_calculated = some lc ∧
          nowTs - lc > 3600)) →
      get_analytics st uid force nowTs =
        (some (computeSnapshot st.services st.subscriptions uid nowTs),
          calculate_and_cache_analytics st uid nowTs)) ∧
    (¬ (force = true ∨ findAnalytics st uid = none ∨
        (∃ s, findAnalytics st uid = some s ∧ s.last_calculated = none) ∨
        (∃ s lc, findAnalytics st uid = some s ∧ s.last_calculated = some lc ∧
          nowTs - lc > 3600)) →
      get_analytics st uid force nowTs = (findAnalytics st uid, st)) := by
  constructor
  · intro h
    have hb : shouldRefresh force (findAnalytics st uid) nowTs = true :=
      (shouldRefresh_iff force (findAnalytics st uid) nowTs).2 h
    simp [get_analytics, hb]
  · intro h
    have hb : shouldRefresh force (findAnalytics st uid) nowTs = false := by
      cases hsr : shouldRefresh force (findAnalytics st uid) nowTs
      · rfl
      · exact absurd ((shouldRefresh_iff force (findAnalytics st uid) nowTs).1 hsr) h
    simp [get_analytics, hb]

/-- Witness for C2: with the time-4000 snapshot and the clock at 5000, a
forced request recomputes while a plain request returns the stored row and
leaves the state alone. -/
theorem analytics_cache_policy_witness :
    get_analytics stOne 1 true 5000 =
      (some (computeSnapshot stOne.services stOne.subscriptions 1 5000),
        calculate_and_cache_analytics stOne 1 5000) ∧
    get_analytics stOne 1 false 5000 = (findAnalytics stOne 1, stOne) := by
  constructor
  · exact (analytics_cache_policy stOne 1 true 5000).1 (Or.inl rfl)
  · apply (analytics_cache_policy stOne 1 false 5000).2
    have hfa : findAnalytics stOne 1 = some snapOne := rfl
    have h4 : snapOne.last_calculated = some 4000 := rfl
    rintro (h | h | ⟨s, hs, h⟩ | ⟨s, lc, hs, hlc, h⟩)
    · exact Bool.noConfusion h
    · rw [hfa] at h
      exact Option.noConfusion h
    · rw [hfa] at hs
      cases Option.some.inj hs
      rw [h4] at h
      exact Option.noConfusion h
    · rw [hfa] at hs
      cases Option.some.inj hs
      rw [h4] at hlc
      cases Option.some.inj hlc
      exact absurd h (by decide)

/-! ## Claim C1 -/

theorem mutationPhase1_analytics (st : DBState) (uid : Nat) (d : Date) (t : Int)
    (op : MutationOp) (r : HttpOutcome Nat) (st1 : DBState)
    (h : mutationPhase1 st uid d t op = .ok (r, st1)) :
    st1.analytics = st.analytics := by
  cases op with
  | create req sid bid =>
    simp only [mutationPhase1] at h
    split at h
    · exact Except.noConfusion h
    · exact Except.noConfusion h
  | update subId u =>
    simp only [mutationPhase1] at h
    split at h
    · exact Except.noConfusion h
    · split at h
      · exact Except.noConfusion h
      · cases h
        rfl
  | delete subId =>
    simp only [mutationPhase1] at h
    split at h
    · exact Except.noConfusion h
    · cases h
      rfl

/-- C1, counterexample: deleting user 1's only subscription while the
analytics recompute-and-store step fails leaves a state whose subscription
table has lost the row and whose analytics are the old ones — the
pre-mutation state is NOT restored, refuting the claimed atomicity. -/
theorem mutation_not_atomic_counterexample :
    (runMutation stOne 1 ⟨2026, 1, 10⟩ 5000 false (.delete 1)).2.subscriptions = [] ∧
    stOne.subscriptions = [subOne] ∧
    (runMutation stOne 1 ⟨2026, 1, 10⟩ 5000 false (.delete 1)).2.analytics = stOne.analytics ∧
    (runMutation stOne 1 ⟨2026, 1, 10⟩ 5000 false (.delete 1)).2 ≠ stOne := by
  refine ⟨rfl, rfl, rfl, ?_⟩
  intro heq
  have h2 : (runMutation stOne 1 ⟨2026, 1, 10⟩ 5000 false (.delete 1)).2.subscriptions =
      stOne.subscriptions := congrArg DBState.subscriptions heq
  have h3 : ([] : List Subscription) = [subOne] := h2
  exact List.noConfusion h3

/-- C1 (amended): the subscription mutation and the analytics snapshot
update commit in two separate transactions; when the recompute-and-store
step fails after the mutation's own commit, the handler reports a server
error, the committed mutation stays (the post-state is exactly the state
committed by the mutation), and only the analytics table is left at its
pre-mutation contents. -/
theorem mutation_analytics_failure_keeps_commit (st : DBState) (uid : Nat)
    (d : Date) (t : Int) (op : MutationOp) (r : HttpOutcome Nat) (st1 : DBState)
    (h : mutationPhase1 st uid d t op = .ok (r, st1)) :
    runMutation st uid d t false op = (.serverError, st1) ∧
    st1.analytics = st.analytics := by
  constructor
  · unfold runMutation
    rw [h]
    rfl
  · exact mutationPhase1_analytics st uid d t op r st1 h

/-- Witness for C1: the concrete delete of `subOne` with a failing
analytics step. -/
theorem mutation_analytics_failure_keeps_commit_witness :
    runMutation stOne 1 ⟨2026, 1, 10⟩ 5000 false (.delete 1) =
      (.serverError, ⟨[svcEnt], [], [snapOne]⟩) ∧
    (⟨[svcEnt], [], [snapOne]⟩ : DBState).analytics = stOne.analytics :=
  mutation_analytics_failure_keeps_commit stOne 1 ⟨2026, 1, 10⟩ 5000 (.delete 1)
    (.ok 1) ⟨[svcEnt], [], [snapOne]⟩ rfl

/-! ## Claim C3 -/

theorem shouldRefresh_fresh (s : UserAnalytics) (t : Int)
    (hlc : s.last_calculated = some t) :
    shouldRefresh false (some s) t = false := by
  simp [shouldRefresh, hlc, sub_self]

/-- C3: every successful mutation (create, update or delete)
unconditionally recomputes and stores the owning user's snapshot — the
stored snapshot after the mutation equals the recompute over the
post-mutation subscription set — and an analytics fetch immediately
afterwards without force-refresh returns exactly that snapshot and changes
nothing. -/
theorem mutation_refreshes_analytics (st : DBState) (uid : Nat) (d : Date) (t : Int)
    (op : MutationOp) (r : HttpOutcome Nat) (st1 : DBState)
    (h : mutationPhase1 st uid d t op = .ok (r, st1)) :
    findAnalytics (runMutation st uid d t true op).2 uid =
      some (computeSnapshot (runMutation st uid d t true op).2.services
        (runMutation st uid d t true op).2.subscriptions uid t) ∧
    get_analytics (runMutation st uid d t true op).2 uid false t =
      (some (computeSnapshot (runMutation st uid d t true op).2.services
        (runMutation st uid d t true op).2.subscriptions uid t),
        (runMutation st uid d t true op).2) := by
  have hst2 : (runMutation st uid d t true op).2 = calculate_and_cache_analytics st1 uid t := by
    unfold runMutation
    rw [h]
    rfl
  have hsvc : (calculate_and_cache_analytics st1 uid t).services = st1.services := rfl
  have hsubs : (calculate_and_cache_analytics st1 uid t).subscriptions = st1.subscriptions := rfl
  have hfa : findAnalytics (runMutation st uid d t true op).2 uid =
      some (computeSnapshot (runMutation st uid d t true op).2.services
        (runMutation st uid d t true op).2.subscriptions uid t) := by
    rw [hst2, hsvc, hsubs]
    exact findAnalytics_calc st1 uid t
  refine ⟨hfa, ?_⟩
  have hsr : shouldRefresh false
      (some (computeSnapshot (runMutation st uid d t true op).2.services
        (runMutation st uid d t true op).2.subscriptions uid t)) t = false :=
    shouldRefresh_fresh _ t rfl
  simp [get_analytics, hfa, hsr]

/-- Witness for C3: deleting `subOne` then fetching analytics at the same
time without force-refresh. -/
theorem mutation_refreshes_analytics_witness :
    findAnalytics (runMutation stOne 1 ⟨2026, 1, 10⟩ 5000 true (.delete 1)).2 1 =
      some (computeSnapshot (runMutation stOne 1 ⟨2026, 1, 10⟩ 5000 true (.delete 1)).2.services
        (runMutation stOne 1 ⟨2026, 1, 10⟩ 5000 true (.delete 1)).2.subscriptions 1 5000) ∧
    get_analytics (runMutation stOne 1 ⟨2026, 1, 10⟩ 5000 true (.delete 1)).2 1 false 5000 =
      (some (computeSnapshot (runMutation stOne 1 ⟨2026, 1, 10⟩ 5000 true (.delete 1)).2.services
        (runMutation stOne 1 ⟨2026, 1, 10⟩ 5000 true (.delete 1)).2.subscriptions 1 5000),
        (runMutation stOne 1 ⟨2026, 1, 10⟩ 5000 true (.delete 1)).2) :=
  mutation_refreshes_analytics stOne 1 ⟨2026, 1, 10⟩ 5000 (.delete 1)
    (.ok 1) ⟨[svcEnt], [], [snapOne]⟩ rfl

/-! ## Claim C5 -/

/-- C5: for every non-empty per-user subscription set, the sum of the
per-category totals in the computed snapshot's `category_breakdown` (each
subscription grouped under its referenced service's category, or "Other"
when the service row is missing) equals the snapshot's
`total_monthly_cost` — exactly, in the rational model. -/
theorem snapshot_breakdown_sums_to_total (services : List Service)
    (subs : List Subscription) (uid : Nat) (t : Int)
    (h : userSubscriptions subs uid ≠ []) :
    breakdownTotal (computeSnapshot services subs uid t).category_breakdown =
      (computeSnapshot services subs uid t).total_monthly_cost := by
  show breakdownTotal (categoryBreakdown services (userSubscriptions subs uid)) =
    totalMonthlyCost (userSubscriptions subs uid)
  unfold categoryBreakdown
  have hfold := foldl_breakdown_total services (userSubscriptions subs uid) []
  simpa [breakdownTotal] using hfold

/-- Witness for C5: the one-subscription state. -/
theorem snapshot_breakdown_sums_to_total_witness :
    userSubscriptions [subOne] 1 ≠ [] ∧
    breakdownTotal (computeSnapshot [svcEnt] [subOne] 1 4000).category_breakdown =
      (computeSnapshot [svcEnt] [subOne] 1 4000).total_monthly_cost := by
  have hne : userSubscriptions [subOne] 1 ≠ [] := by
    rw [show userSubscriptions [subOne] 1 = [subOne] from rfl]
    exact List.cons_ne_nil subOne []
  exact ⟨hne, snapshot_breakdown_sums_to_total [svcEnt] [subOne] 1 4000 hne⟩

/-! ## Claim C4 -/

/-- A create request whose caller-supplied `monthly_cost` (5) disagrees with
the spec's Money Normalizer applied to its `cost`/`billing_cycle`
(12 yearly → 1). -/
def reqC4 : SubscriptionCreate :=
  { service := some ⟨"Acme", none, none, "Software"⟩
    account := "me@x.com"
    payment_date := "2026-02-01"
    cost := 12
    billing_cycle := .yearly
    monthly_cost := 5
    is_trial := false
    trial_start_date := none
    trial_end_date := none
    trial_duration_days := none
    auto_pay := false }

/-- The empty database state. -/
def stEmpty : DBState := ⟨[], [], []⟩

/-- C4, counterexample: for the concrete create request with cost 12 ≥ 0,
yearly cycle and caller-supplied monthly_cost 5, the create operation
persists nothing at all — it fails with a server error (the `TypeError`
raised on the unmapped `auto_pay` / `icon_source_url` keywords, before the
first commit) and leaves the state unchanged — so there is no stored
subscription whose monthly_cost could equal the Normalizer's
12/12 = 1. -/
theorem create_monthly_cost_not_normalized :
    (0 : ℚ) ≤ reqC4.cost ∧
    runMutation stEmpty 1 ⟨2026, 1, 10⟩ 1000 true (.create reqC4 10 20) =
      (.serverError, stEmpty) ∧
    (runMutation stEmpty 1 ⟨2026, 1, 10⟩ 1000 true
        (.create reqC4 10 20)).2.subscriptions = [] ∧
    spec_normalize reqC4.cost reqC4.billing_cycle = 1 := by
  refine ⟨by norm_num [reqC4], rfl, rfl, ?_⟩
  show spec_normalize 12 .yearly = 1
  norm_num [spec_normalize]

/-- C4 (amended): every create request fails before the first commit — with
service info the ORM constructors raise `TypeError` on the unmapped
`auto_pay` / `icon_source_url` keywords (HTTP 500), without service info
the handler answers 422 — so the create endpoint never persists a
subscription, and in particular no Money Normalizer (none exists in the
backend, see `spec_normalize`) is ever applied to a stored
`monthly_cost`. -/
theorem create_always_fails (st : DBState) (uid : Nat) (d : Date) (t : Int)
    (ok : Bool) (req : SubscriptionCreate) (sid bid : Nat) :
    (runMutation st uid d t ok (.create req sid bid)).2 = st ∧
    ((runMutation st uid d t ok (.create req sid bid)).1 = .serverError ∨
      (runMutation st uid d t ok (.create req sid bid)).1 = .unprocessable) := by
  cases hs : req.service with
  | none => simp [runMutation, mutationPhase1, hs]
  | some sb => simp [runMutation, mutationPhase1, hs]

/-! ## Claim C9 -/

/-- C9: deleting a subscription that exists but belongs to a different user
yields exactly the same observable as a nonexistent id — the pair
`(notFound, unchanged state)` — and the owner's subscription is still in
the table afterwards.  The uniqueness hypothesis reflects the primary-key
constraint on `subscriptions.id`. -/
theorem cross_user_delete_not_found (st : DBState) (uidB : Nat) (s : Subscription)
    (d : Date) (t : Int) (ok : Bool)
    (hmem : s ∈ st.subscriptions)
    (hown : s.user_id ≠ uidB)
    (huniq : ∀ s2 ∈ st.subscriptions, s2.id = s.id → s2 = s) :
    runMutation st uidB d t ok (.delete s.id) = (.notFound, st) ∧
    s ∈ (runMutation st uidB d t ok (.delete s.id)).2.subscriptions := by
  have hfind : st.subscriptions.find?
      (fun x => x.id == s.id && x.user_id == uidB) = none := by
    rw [List.find?_eq_none]
    intro x hx hpx
    have hparts := Bool.and_eq_true_iff.mp hpx
    have hid : x.id = s.id := Nat.eq_of_beq_eq_true (by simpa using hparts.1)
    have huser : x.user_id = uidB := Nat.eq_of_beq_eq_true (by simpa using hparts.2)
    have hxs : x = s := huniq x hx hid
    rw [hxs] at huser
    exact hown huser
  have hrun : runMutation st uidB d t ok (.delete s.id) = (.notFound, st) := by
    simp only [runMutation, mutationPhase1]
    rw [hfind]
  refine ⟨hrun, ?_⟩
  rw [hrun]
  exact hmem

/-- A subscription owned by user 2. -/
def subB : Subscription :=
  ⟨7, 2, 1, "b@c.com", "2026-01-15", 10, .monthly, 10,
    false, none, none, none, false, 2026, 1, 0⟩

/-- A state holding only user 2's subscription. -/
def stB : DBState := ⟨[svcEnt], [subB], []⟩

/-- Witness for C9: user 1 attempts to delete user 2's subscription. -/
theorem cross_user_delete_not_found_witness :
    runMutation stB 1 ⟨2026, 1, 10⟩ 0 true (.delete subB.id) = (.notFound, stB) ∧
    subB ∈ (runMutation stB 1 ⟨2026, 1, 10⟩ 0 true (.delete subB.id)).2.subscriptions :=
  cross_user_delete_not_found stB 1 subB ⟨2026, 1, 10⟩ 0 true
    (List.mem_singleton_self subB)
    (by decide)
    (fun s2 hs2 _ => List.mem_singleton.mp hs2)

/-! ## Claim C10 -/

/-- A well-formed create request carrying `billing_cycle = weekly` (which
the request schema accepts). -/
def reqWeekly : SubscriptionCreate :=
  { service := some ⟨"Gym", none, none, "Health"⟩
    account := "me@x.com"
    payment_date := "2026-02-01"
    cost := 3
    billing_cycle := .weekly
    monthly_cost := 13
    is_trial := false
    trial_start_date := none
    trial_end_date := none
    trial_duration_days := none
    auto_pay := false }

/-- C10: the persistence enum admits only monthly and yearly while the
request schema also accepts weekly; the weekly create request fails with a
server error and nothing persisted (in the source the constructor
`TypeError` fires first; independently, `SchemaBillingCycle.toModel` — the
`Enum(BillingCycle)` column's value check, still exercised by the update
path — has no image for weekly), and every value of the persistence enum —
hence every stored subscription's billing cycle — is monthly or yearly. -/
theorem weekly_cycle_cannot_be_stored :
    reqWeekly.billing_cycle = .weekly ∧
    SchemaBillingCycle.toModel .weekly = none ∧
    runMutation stEmpty 1 ⟨2026, 1, 10⟩ 1000 true (.create reqWeekly 10 20) =
      (.serverError, stEmpty) ∧
    (∀ c : ModelBillingCycle, c = .monthly ∨ c = .yearly) := by
  refine ⟨rfl, rfl, rfl, ?_⟩
  intro c
  cases c
  · exact Or.inl rfl
  · exact Or.inr rfl

/-! ## Claim C8 -/

/-- The sample input of the spec's pattern-path property. -/
def netflixText : String := "Netflix $15.99 test@example.com"

theorem decToRat_1599 : decToRat ['1', '5', '.', '9', '9'] = 1599/100 := by
  show ((15 : ℕ) : ℚ) + ((99 : ℕ) : ℚ) / (10 : ℚ) ^ (2 : ℕ) = 1599/100
  norm_num

/-- C8: for the input "Netflix $15.99 test@example.com" the extraction
takes the pattern fast path — the result is the same for every LLM outcome,
so the LLM is never consulted — and yields the Netflix draft with
monthly_cost 15.99, account test@example.com, and no trial. -/
theorem netflix_pattern_fast_path (llm : LLMOutcome) (now : Date) :
    parse_subscription_text llm now netflixText =
      some { service_name := some "Netflix"
             service_category := "Entertainment"
             account := "test@example.com"
             monthly_cost := some (1599/100)
             payment_date := some (firstDayNextMonth now)
             is_trial := false
             trial_duration_days := 0 } := by
  have hp : tryPatternBasedParsing now netflixText =
      some { service_name := some "Netflix"
             service_category := "Entertainment"
             account := "test@example.com"
             monthly_cost := some (decToRat ['1', '5', '.', '9', '9'])
             payment_date := some (firstDayNextMonth now)
             is_trial := false
             trial_duration_days := 0 } := rfl
  rw [decToRat_1599] at hp
  simp only [parse_subscription_text, hp]

/-! ## Claim C7 -/

/-- An LLM output dict with a service name and a cost but no
`payment_date` key. -/
def rawNoDate : RawParsed :=
  ⟨some "Hulu", some "Streaming", none, some (.num (1299/100)), none, none, none⟩

/-- The same dict with a nonempty `payment_date` that is not an ISO
date. -/
def rawBadDate : RawParsed :=
  ⟨some "Hulu", some "Streaming", none, some (.num (1299/100)),
    some "next tuesday", none, none⟩

/-- C7, evidence of the code bug: a dict with no `payment_date` leaves the
normalized `payment_date` null — the falsy guard skips the assignment and
no exception ever reaches the handler whose comment promises the
first-day-of-next-month default — whereas a nonempty unparseable
`payment_date` does get replaced by the first day of the next month; hence
the output `payment_date` CAN be null, contradicting the claim. -/
theorem validate_missing_payment_date_stays_null :
    (validate_and_normalize ⟨2026, 10, 12⟩ rawNoDate).payment_date = none ∧
    (validate_and_normalize ⟨2026, 10, 12⟩ rawNoDate).monthly_cost = some (1299/100) ∧
    (validate_and_normalize ⟨2026, 10, 12⟩ rawBadDate).payment_date = some "2026-11-01" :=
  ⟨rfl, rfl, rfl⟩

/-! ## Claim C6 -/

/-- The unrecognized-service free-trial text of the spec's property. -/
def trialText : String := "Unknown Service free trial 30 days"

/-- C6, counterexample: with the LLM unavailable, the endpoint's answer for
the free-trial text is a soft failure whose message is the generic
unable-to-parse one — not the unable-to-determine-cost message the claim
requires — and it carries no partial draft (`parsed_data` is null). -/
theorem nlp_trial_llm_down_counterexample :
    (create_subscription_from_nlp .unavailable stEmpty 1 trialText
        ⟨2026, 10, 12⟩ 1000 10 20 true).1.success = false ∧
    (create_subscription_from_nlp .unavailable stEmpty 1 trialText
        ⟨2026, 10, 12⟩ 1000 10 20 true).1.message = .unableToParse ∧
    NLPMessage.unableToParse ≠ NLPMessage.unableToDetermineCost ∧
    (create_subscription_from_nlp .unavailable stEmpty 1 trialText
        ⟨2026, 10, 12⟩ 1000 10 20 true).1.parsed_data = none :=
  ⟨rfl, rfl, by decide, rfl⟩

/-- C6 (amended): when the pattern table does not match the text and the
LLM is unavailable, the NLP endpoint returns a soft failure — a typed
response, no exception, state unchanged — whose message is the generic
unable-to-parse one (the could-not-identify-service branch), and no partial
draft is carried: `parsed_data` is null because the pipeline returned
nothing. -/
theorem nlp_llm_down_soft_failure (st : DBState) (uid : Nat) (text : String)
    (now : Date) (t : Int) (sid bid : Nat) (ok : Bool)
    (h : tryPatternBasedParsing now text = none) :
    create_subscription_from_nlp .unavailable st uid text now t sid bid ok =
      (⟨false, .unableToParse, none, none⟩, st) := by
  simp only [create_subscription_from_nlp, parse_subscription_text, h]

/-- Witness for C6's amended theorem: the concrete free-trial text. -/
theorem nlp_llm_down_soft_failure_witness :
    create_subscription_from_nlp .unavailable stEmpty 1 trialText
        ⟨2026, 10, 12⟩ 1000 10 20 true =
      (⟨false, .unableToParse, none, none⟩, stEmpty) :=
  nlp_llm_down_soft_failure stEmpty 1 trialText ⟨2026, 10, 12⟩ 1000 10 20 true rfl

end SubApp
